import Mathlib

/-!
Shallow embedding of the report engine of `wrapped.py` (class `AlbumClubWrapped`).

Modelling conventions, fixed once for the whole file:
* A pandas cell that may hold `NaN` is an `Option`; `none` is the missing value.
* Python `float` values are modelled as exact rationals (`ℚ`); the claims under
  study never depend on IEEE rounding, only on which arithmetic expression is
  computed.
* Python `dict`s (all of which are built in insertion order and never deleted
  from) are association lists in insertion order.
* Python's `sorted` and pandas' sorts are stable; they are modelled with
  Mathlib's stable `List.insertionSort`.
* pandas `==` comparisons treat `NaN` as unequal to everything, including
  itself (`pandasEq`), while Python `dict` keys collapse the `np.nan`
  singleton to a single key (ordinary `==` on `Option String`).  Both appear
  in the source and are modelled separately.
* `Series.to_dict()` boxes numpy scalars into native Python `int`/`float`
  (`maybe_box_native`); this matters only for the serialization model below.
-/

/-- One row of the dataframe as it is right after `AlbumClubWrapped.__init__`:
`Month` stripped, `Year` and `album_release_date` coerced to numeric with
failures as missing.  The `date` field models the `date` column that
`_get_club_evolution` later assigns; straight after loading it is absent. -/
structure Row where
  month : Option String
  year : Option Int
  album_name : Option String
  album_artist : Option String
  album_release_date : Option ℚ
  select_member : Option String
  genre : Option String
  date : Option (Int × Nat)
deriving DecidableEq, Repr

/-- The engine's dataframe `self.df`.  `hasDateCol` records whether the
`date` column assigned by `_get_club_evolution` exists in the schema. -/
structure DataFrame where
  rows : List Row
  hasDateCol : Bool
deriving DecidableEq, Repr

/-- Row as loaded (no `date` column yet). -/
def mkRow (month : Option String) (year : Option Int)
    (album_name album_artist : Option String) (album_release_date : Option ℚ)
    (select_member genre : Option String) : Row :=
  ⟨month, year, album_name, album_artist, album_release_date, select_member, genre, none⟩

/-- pandas `==` comparison on a possibly-missing string: `NaN` compares
unequal to everything, itself included. -/
def pandasEq (a b : Option String) : Bool :=
  match a, b with
  | some x, some y => x == y
  | _, _ => false

/-- First-occurrence distinct sublist, generalising pandas `Series.unique`,
`set` sizes and `dict` key order.  `seen` accumulates already-kept values. -/
def uniqFrom [DecidableEq α] (seen : List α) : List α → List α
  | [] => []
  | x :: xs => if x ∈ seen then uniqFrom seen xs else x :: uniqFrom (x :: seen) xs

/-- Distinct values of a list in order of first occurrence. -/
def uniq [DecidableEq α] (xs : List α) : List α := uniqFrom [] xs

/-- Python `str.strip()`: drop leading and trailing whitespace.  Implemented
over the character list so that it evaluates inside the kernel. -/
def pyStrip (s : String) : String :=
  ⟨((s.data.dropWhile Char.isWhitespace).reverse.dropWhile Char.isWhitespace).reverse⟩

/-- Helper for `pySplitComma`: split a character list at every comma.  The
result always has at least one (possibly empty) piece, like Python `split`. -/
def splitCommaAux : List Char → List (List Char)
  | [] => [[]]
  | c :: cs =>
    match splitCommaAux cs with
    | [] => [[]]
    | t :: ts => if c = ',' then [] :: t :: ts else (c :: t) :: ts

/-- Python `s.split(',')`. -/
def pySplitComma (s : String) : List String := (splitCommaAux s.data).map List.asString

/-- Python `str.lower()` (the source data is ASCII). -/
def pyLower (s : String) : String := ⟨s.data.map Char.toLower⟩

/-- `[g.strip() for g in s.split(',')]` — the genre tokenizer used verbatim in
four places of the source.  Note it does not drop empty tokens. -/
def parseGenresStr (s : String) : List String := (pySplitComma s).map pyStrip

/-- Genre tokenizer applied to a possibly-missing `Genre` cell; missing cells
are skipped by the `pd.notna` / `.dropna()` guards in the source. -/
def parseGenres : Option String → List String
  | none => []
  | some s => parseGenresStr s

/-- `Series.value_counts().to_dict()`: drop missing values, count each distinct
value, order by count descending (stable, so ties keep first-occurrence
order). -/
def valueCounts (xs : List (Option String)) : List (String × Nat) :=
  List.insertionSort (fun a b => b.2 ≤ a.2)
    ((uniq (xs.filterMap id)).map (fun k => (k, (xs.filterMap id).count k)))

/-- `Counter(xs).most_common()` order: distinct values by count descending,
ties by first occurrence. -/
def valueCountsStr (xs : List String) : List (String × Nat) :=
  List.insertionSort (fun a b => b.2 ≤ a.2) ((uniq xs).map (fun k => (k, xs.count k)))

/-- `Counter(xs).most_common(1)[0]`: the first-encountered value of maximal
multiplicity, with its count.  Only used on nonempty lists in the source. -/
def mostCommon1 (xs : List String) : String × Nat :=
  (uniq xs).foldl (fun b k => if xs.count k > b.2 then (k, xs.count k) else b) ("", 0)

/-- Python `max` over a nonempty list (of values); `0` default is never used
by the guarded call sites. -/
def listMax : List ℚ → ℚ
  | [] => 0
  | x :: xs => xs.foldl max x

/-- Python `min` over a nonempty list. -/
def listMin : List ℚ → ℚ
  | [] => 0
  | x :: xs => xs.foldl min x

/-- `np.mean` / `Series.mean`: sum divided by length. -/
def listMean (xs : List ℚ) : ℚ := xs.sum / xs.length

/-- Python `max(pairs, key=lambda x: x[1])`: first pair of maximal second
component (strict-`>` replacement), `none` on the empty list (the source
guards every call with a nonemptiness test). -/
def maxBySnd [LinearOrder β] : List (α × β) → Option (α × β)
  | [] => none
  | x :: xs => some (xs.foldl (fun b p => if p.2 > b.2 then p else b) x)

/-- Python `min(pairs, key=lambda x: x[1])`: first pair of minimal second
component. -/
def minBySnd [LinearOrder β] : List (α × β) → Option (α × β)
  | [] => none
  | x :: xs => some (xs.foldl (fun b p => if p.2 < b.2 then p else b) x)

/-! ## `_get_member_stats` -/

/-- `self.df['select_member'].value_counts().to_dict()`. -/
def selectionCounts (df : DataFrame) : List (String × Nat) :=
  valueCounts (df.rows.map (·.select_member))

/-- Rows passing the `pd.notna(row['Genre'])` guard. -/
def genreRows (df : DataFrame) : List Row := df.rows.filter (fun r => r.genre.isSome)

/-- The `genre_by_member` defaultdict: keys in first-occurrence order over the
genre-carrying rows, each key holding the concatenation of its rows' parsed
genre lists.  Keys are raw `row['select_member']` values, so a missing
selector becomes the `NaN` key (modelled as `none`). -/
def genreByMember (df : DataFrame) : List (Option String × List String) :=
  (uniq ((genreRows df).map (·.select_member))).map
    (fun m => (m, ((genreRows df).filter (fun r => r.select_member == m)).flatMap
      (fun r => parseGenres r.genre)))

/-- `member_genre_prefs`: for each member with a nonempty genre list, its
`most_common(1)` genre and the count of distinct genres. -/
def memberGenrePrefs (df : DataFrame) : List (Option String × ((String × Nat) × Nat)) :=
  (genreByMember df).filterMap (fun p =>
    if p.2.isEmpty then none
    else some (p.1, (mostCommon1 p.2, (uniq p.2).length)))

/-- Rows passing the `pd.notna(row['album_release_date'])` guard. -/
def datedRows (df : DataFrame) : List Row :=
  df.rows.filter (fun r => r.album_release_date.isSome)

/-- The `era_by_member` defaultdict of release years, missing selectors again
keyed under `NaN`. -/
def eraByMember (df : DataFrame) : List (Option String × List ℚ) :=
  (uniq ((datedRows df).map (·.select_member))).map
    (fun m => (m, ((datedRows df).filter (fun r => r.select_member == m)).filterMap
      (·.album_release_date)))

/-- Per-member era statistics. -/
structure EraStats where
  avg_release_year : ℚ
  oldest_pick : ℚ
  newest_pick : ℚ
  year_span : ℚ
deriving DecidableEq, Repr

/-- `member_era_stats`: mean, min, max and span of each member's release
years. -/
def memberEraStats (df : DataFrame) : List (Option String × EraStats) :=
  (eraByMember df).filterMap (fun p =>
    if p.2.isEmpty then none
    else some (p.1, ⟨listMean p.2, listMin p.2, listMax p.2, listMax p.2 - listMin p.2⟩))

/-- Result of `_get_member_stats`. -/
structure MemberStats where
  selection_counts : List (String × Nat)
  genre_preferences : List (Option String × ((String × Nat) × Nat))
  era_preferences : List (Option String × EraStats)
deriving DecidableEq, Repr

/-- `_get_member_stats`. -/
def memberStats (df : DataFrame) : MemberStats :=
  ⟨selectionCounts df, memberGenrePrefs df, memberEraStats df⟩

/-! ## `_get_genre_stats` -/

/-- `all_genres`: every parsed genre token of every non-missing `Genre` cell,
in row order. -/
def allGenres (df : DataFrame) : List String :=
  (df.rows.filterMap (·.genre)).flatMap parseGenresStr

/-- `self.df['Month'].unique()` (a missing month appears as `none`). -/
def monthLabels (df : DataFrame) : List (Option String) := uniq (df.rows.map (·.month))

/-- `self.df[self.df['Month'] == month]` — pandas `==`, so the `NaN` label
selects no rows. -/
def monthRows (df : DataFrame) (l : Option String) : List Row :=
  df.rows.filter (fun r => pandasEq r.month l)

/-- Result of `_get_genre_stats`. -/
structure GenreStats where
  top_genres : List (String × Nat)
  total_unique_genres : Nat
  monthly_diversity : List (Option String × Nat)
deriving DecidableEq, Repr

/-- `_get_genre_stats`. -/
def genreStats (df : DataFrame) : GenreStats :=
  ⟨(valueCountsStr (allGenres df)).take 10,
   (uniq (allGenres df)).length,
   (monthLabels df).map (fun l =>
     (l, (uniq (((monthRows df l).filterMap (·.genre)).flatMap parseGenresStr)).length))⟩

/-! ## `_get_decade_stats` -/

/-- Non-missing release years in row order (`.dropna()`). -/
def datedYears (df : DataFrame) : List ℚ := df.rows.filterMap (·.album_release_date)

/-- `f"{int(year // 10) * 10}s"`: float floor-division by 10, truncation of the
already-floored value, times 10. -/
def decadeLabel (y : ℚ) : String := toString (⌊y / 10⌋ * 10) ++ "s"

/-- Lexicographic code-point comparison of character lists: the order Python
uses to compare `str` values. -/
def charListLe : List Char → List Char → Bool
  | [], _ => true
  | _ :: _, [] => false
  | a :: as, b :: bs => if a < b then true else if b < a then false else charListLe as bs

/-- Python `str` comparison `a <= b` (lexicographic by code point). -/
def strLe (a b : String) : Bool := charListLe a.data b.data

/-- The decade label of each dated record, in row order. -/
def decadeLabels (df : DataFrame) : List String := (datedYears df).map decadeLabel

/-- `_get_decade_stats`: tally of decade labels in first-occurrence order
(`defaultdict`), then `dict(sorted(...))` — sorted by the label *string*. -/
def decadeStats (df : DataFrame) : List (String × Nat) :=
  List.insertionSort (fun a b => strLe a.1 b.1 = true)
    ((uniq (decadeLabels df)).map (fun k => (k, (decadeLabels df).count k)))

/-! ## `_get_album_age_stats` -/

/-- Result rows of `_get_album_age_stats` when some record is dated. -/
structure AgeStats where
  avg_album_age : ℚ
  median_album_age : ℚ
  oldest_album : Row
  newest_album : Row
deriving DecidableEq, Repr

/-- `np.median`: middle of the sorted list, or the mean of the two middles. -/
def medianQ (xs : List ℚ) : ℚ :=
  let s := List.insertionSort (fun a b => a ≤ b) xs
  if s.length % 2 = 1 then s.getD (s.length / 2) 0
  else (s.getD (s.length / 2 - 1) 0 + s.getD (s.length / 2) 0) / 2

/-- Fallback row; unreachable at the guarded call sites. -/
def emptyRow : Row := ⟨none, none, none, none, none, none, none, none⟩

/-- `self.df.loc[self.df['album_release_date'].idxmin()]`: the first row whose
release date attains the minimum (missing dates are skipped). -/
def oldestAlbum (df : DataFrame) : Row :=
  (df.rows.find? (fun r => r.album_release_date == some (listMin (datedYears df)))).getD emptyRow

/-- `idxmax` analogue of `oldestAlbum`. -/
def newestAlbum (df : DataFrame) : Row :=
  (df.rows.find? (fun r => r.album_release_date == some (listMax (datedYears df)))).getD emptyRow

/-- `_get_album_age_stats` with its hard-coded `current_year = 2025`;
`none` models the empty-dict result. -/
def albumAgeStats (df : DataFrame) : Option AgeStats :=
  let ages := (datedYears df).map (fun y => (2025 : ℚ) - y)
  if ages.isEmpty then none
  else some ⟨listMean ages, medianQ ages, oldestAlbum df, newestAlbum df⟩

/-! ## `_get_monthly_patterns` -/

/-- `self.df.groupby('Month').size().to_dict()`: missing months dropped, keys
sorted ascending. -/
def albumsPerMonth (df : DataFrame) : List (String × Nat) :=
  List.insertionSort (fun a b => strLe a.1 b.1 = true)
    ((uniq (df.rows.filterMap (·.month))).map
      (fun m => (m, (df.rows.filter (fun r => r.month == some m)).length)))

/-- `month_df['select_member'].nunique()` (missing selectors not counted). -/
def monthNunique (df : DataFrame) (l : Option String) : Nat :=
  (uniq ((monthRows df l).filterMap (·.select_member))).length

/-- The `avg_per_person` dict: one entry per unique month label, value
`len(month_df) / unique_selectors` guarded by `if unique_selectors > 0`. -/
def avgSelectionsPerPerson (df : DataFrame) : List (Option String × ℚ) :=
  (monthLabels df).map (fun l =>
    (l, if 0 < monthNunique df l
        then ((monthRows df l).length : ℚ) / (monthNunique df l : ℚ)
        else 0))

/-- Result of `_get_monthly_patterns`. -/
structure MonthlyPatterns where
  albums_per_month : List (String × Nat)
  avg_selections_per_person : List (Option String × ℚ)
deriving DecidableEq, Repr

/-- `_get_monthly_patterns`. -/
def monthlyPatterns (df : DataFrame) : MonthlyPatterns :=
  ⟨albumsPerMonth df, avgSelectionsPerPerson df⟩

/-! ## `_get_artist_stats` -/

/-- Result of `_get_artist_stats`. -/
structure ArtistStats where
  total_unique_artists : Nat
  repeat_artists : List (String × Nat)
deriving DecidableEq, Repr

/-- `_get_artist_stats`. -/
def artistStats (df : DataFrame) : ArtistStats :=
  let vc := valueCounts (df.rows.map (·.album_artist))
  ⟨vc.length, vc.filter (fun p => 1 < p.2)⟩

/-! ## `_get_superlatives` -/

/-- `self.df['select_member'].unique()` — includes the `NaN` value. -/
def uniqSel (df : DataFrame) : List (Option String) := uniq (df.rows.map (·.select_member))

/-- `self.df[self.df['select_member'] == member]` — pandas `==`, so the `NaN`
member selects no rows. -/
def memberRowsPd (df : DataFrame) (m : Option String) : List Row :=
  df.rows.filter (fun r => pandasEq r.select_member m)

/-- `member_df['album_release_date'].dropna()`. -/
def memberDates (df : DataFrame) (m : Option String) : List ℚ :=
  (memberRowsPd df m).filterMap (·.album_release_date)

/-- The `genre_diversity` dict: every unique selector value mapped to its
count of distinct genres (0 when it has no rows or no genres). -/
def genreDiversity (df : DataFrame) : List (Option String × Nat) :=
  (uniqSel df).map (fun m =>
    (m, (uniq (((memberRowsPd df m).filterMap (·.genre)).flatMap parseGenresStr)).length))

/-- Common shape of the `year_spans` / `avg_years` dicts: members whose
filtered release-year series is nonempty, mapped through `g`. -/
def perMemberDated (df : DataFrame) (g : List ℚ → ℚ) : List (Option String × ℚ) :=
  (uniqSel df).filterMap (fun m =>
    if (memberDates df m).isEmpty then none else some (m, g (memberDates df m)))

/-- The `year_spans` dict: `years.max() - years.min()` per qualifying member. -/
def yearSpans (df : DataFrame) : List (Option String × ℚ) :=
  perMemberDated df (fun ys => listMax ys - listMin ys)

/-- The `avg_years` dict: `years.mean()` per qualifying member. -/
def avgYears (df : DataFrame) : List (Option String × ℚ) :=
  perMemberDated df listMean

/-- Result of `_get_superlatives`; a `none` field models an omitted key. -/
structure Superlatives where
  most_eclectic : Option (Option String × Nat)
  time_traveler : Option (Option String × ℚ)
  vintage_collector : Option (Option String × ℚ)
  trendsetter : Option (Option String × ℚ)
deriving DecidableEq, Repr

/-- `_get_superlatives`: the four `if <dict>: superlatives[...] = max/min(...)`
assignments. -/
def superlatives (df : DataFrame) : Superlatives :=
  ⟨maxBySnd (genreDiversity df), maxBySnd (yearSpans df),
   minBySnd (avgYears df), maxBySnd (avgYears df)⟩

/-! ## `_get_club_evolution` -/

/-- `%B` month-name component of `pd.to_datetime(..., format='%Y-%B')`;
`strptime` matches full English month names case-insensitively. -/
def monthIndex (s : String) : Option Nat :=
  match pyLower s with
  | "january" => some 1
  | "february" => some 2
  | "march" => some 3
  | "april" => some 4
  | "may" => some 5
  | "june" => some 6
  | "july" => some 7
  | "august" => some 8
  | "september" => some 9
  | "october" => some 10
  | "november" => some 11
  | "december" => some 12
  | _ => none

/-- `strftime('%B')` month name. -/
def monthName : Nat → String
  | 1 => "January"
  | 2 => "February"
  | 3 => "March"
  | 4 => "April"
  | 5 => "May"
  | 6 => "June"
  | 7 => "July"
  | 8 => "August"
  | 9 => "September"
  | 10 => "October"
  | 11 => "November"
  | 12 => "December"
  | _ => ""

/-- Value of the `date` column for one row.  `allYearsPresent` models the
dtype of the `Year` column: when any `Year` is missing the column is float64
and `astype(str)` renders every year like `"2024.0"`, which `%Y` (exactly four
digits) rejects, so every row coerces to `NaT`.  Otherwise the date parses
exactly when the year has four digits and the month is a full month name. -/
def dateOf (allYearsPresent : Bool) (r : Row) : Option (Int × Nat) :=
  if allYearsPresent then
    match r.year, r.month with
    | some y, some m =>
      match monthIndex m with
      | some mi => if 1000 ≤ y ∧ y ≤ 9999 then some (y, mi) else none
      | none => none
    | _, _ => none
  else none

/-- The assignment `self.df['date'] = pd.to_datetime(...)` inside
`_get_club_evolution`: it mutates the shared dataframe by adding a column. -/
def addDateColumn (df : DataFrame) : DataFrame :=
  ⟨df.rows.map (fun r => { r with date := dateOf (df.rows.all (fun r2 => r2.year.isSome)) r }),
   true⟩

/-- Comparison used by `sort_values('date')`: ascending, `NaT` last. -/
def dateLeB : Option (Int × Nat) → Option (Int × Nat) → Bool
  | some x, some y => decide (x.1 < y.1) || (decide (x.1 = y.1) && decide (x.2 ≤ y.2))
  | some _, none => true
  | none, some _ => false
  | none, none => true

/-- One element of the `monthly_participation` list. -/
structure EvoEntry where
  date : String
  participants : List (Option String)
  num_albums : Nat
deriving DecidableEq, Repr

/-- Body of `_get_club_evolution` after the `date` column has been added:
sort by date, then for each distinct non-`NaT` date (ascending) emit the
display date, the unique participants and the row count. -/
def clubEvolution (df : DataFrame) : List EvoEntry :=
  let sortedRows := List.insertionSort (fun a b => dateLeB a.date b.date = true) df.rows
  (uniq (sortedRows.filterMap (·.date))).map (fun dt =>
    let mdf := sortedRows.filter (fun r => r.date == some dt)
    ⟨monthName dt.2 ++ " " ++ toString dt.1, uniq (mdf.map (·.select_member)), mdf.length⟩)

/-! ## `generate_wrapped_stats` -/

/-- The full statistics document. -/
structure Stats where
  member_stats : MemberStats
  genre_stats : GenreStats
  decade_stats : List (String × Nat)
  album_age_stats : Option AgeStats
  monthly_patterns : MonthlyPatterns
  artist_stats : ArtistStats
  superlatives : Superlatives
  club_evolution : List EvoEntry
deriving DecidableEq, Repr

/-- `generate_wrapped_stats`, with the engine state (`self.df`) passed
explicitly: the first component is the dataframe after the run.  All
aggregators except `_get_club_evolution` leave `self.df` untouched;
`_get_club_evolution`, which runs last, assigns the `date` column. -/
def generate_wrapped_stats (df : DataFrame) : DataFrame × Stats :=
  let dated := addDateColumn df
  (dated,
   ⟨memberStats df, genreStats df, decadeStats df, albumAgeStats df,
    monthlyPatterns df, artistStats df, superlatives df, clubEvolution dated⟩)

/-! ## `__init__` at schema level -/

/-- Failure modes of loading.  `dataFormatError` is the error class named by
the specification; the implementation only ever raises `KeyError` (a missing
column subscript). -/
inductive LoadError where
  | keyError (col : String)
  | dataFormatError (col : String)
deriving DecidableEq, Repr

/-- `AlbumClubWrapped.__init__` at schema level: strip the column names, then
touch (in source order) the `Month`, `Year` and `album_release_date` columns —
each raising `KeyError` if absent — and finally rename `Genera` to `Genre`
when present.  No other column is consulted. -/
def initColumns (cols : List String) : Except LoadError (List String) :=
  let cs := cols.map pyStrip
  if "Month" ∉ cs then .error (.keyError "Month")
  else if "Year" ∉ cs then .error (.keyError "Year")
  else if "album_release_date" ∉ cs then .error (.keyError "album_release_date")
  else .ok (if "Genera" ∈ cs then cs.map (fun c => if c = "Genera" then "Genre" else c) else cs)

/-! ## Derived definitions used to state the claims -/

/-- The comma-separated tokens of a genre cell before stripping (a missing
cell has no tokens, matching the `pd.notna` guard). -/
def genreTokens : Option String → List String
  | none => []
  | some g => pySplitComma g

/-- Modelled from the spec's words, for comparison with `decadeStats`: the
same decade tally but "returned sorted ascending by decade", i.e. by the
numeric decade value rather than by its label string. -/
def decadeStatsSpec (df : DataFrame) : List (String × Nat) :=
  (List.insertionSort (fun a b => a ≤ b)
      (uniq ((datedYears df).map (fun y => ⌊y / 10⌋ * 10)))).map
    (fun d => (toString d ++ "s", ((datedYears df).map (fun y => ⌊y / 10⌋ * 10)).count d))

/-- The same dataset with every `select_member` cell blanked; used to state
that the non-member-keyed aggregations never read the selector column. -/
def eraseSelectors (df : DataFrame) : DataFrame :=
  ⟨df.rows.map (fun r => { r with select_member := none }), df.hasDateCol⟩

/-! ## Concrete datasets used by counterexamples and witnesses -/

/-- The three-record scenario dataset of the specification (§8). -/
def exDf9 : DataFrame :=
  ⟨[mkRow (some "March") (some 2024) (some "n1") (some "A") (some 1975) (some "Sam") (some "Jazz"),
    mkRow (some "March") (some 2024) (some "n2") (some "B") (some 2001) (some "Sam")
      (some "Jazz,Rock"),
    mkRow (some "April") (some 2024) (some "n3") (some "A") (some 1999) (some "Dana")
      (some "Rock")], false⟩

/-- A one-record dataset (no genre, no release date) on which the run visibly
mutates `self.df`, and whose superlatives still award `most_eclectic`. -/
def exDf2 : DataFrame :=
  ⟨[mkRow (some "March") (some 2024) (some "n") (some "A") none (some "Sam") none], false⟩

/-- One record whose selector is missing but whose genre is present. -/
def exDf4 : DataFrame :=
  ⟨[mkRow (some "March") (some 2024) (some "n1") (some "A") none none (some "Jazz")], false⟩

/-- One record whose genre cell has a trailing comma. -/
def exDf5 : DataFrame :=
  ⟨[mkRow (some "March") (some 2024) (some "n1") (some "A") none (some "Sam")
      (some "Jazz,")], false⟩

/-- One record with well-formed (padded but nonempty) genre tokens. -/
def exDf5w : DataFrame :=
  ⟨[mkRow (some "March") (some 2024) (some "n1") (some "A") none (some "Sam")
      (some " Jazz , Rock")], false⟩

/-- Two dated records whose decades have different digit counts. -/
def exDf6 : DataFrame :=
  ⟨[mkRow (some "March") (some 2024) (some "n1") (some "A") (some 995) (some "Sam") none,
    mkRow (some "April") (some 2024) (some "n2") (some "B") (some 1975) (some "Dana") none],
   false⟩

/-- One month with four records from two distinct selectors. -/
def exDf7 : DataFrame :=
  ⟨[mkRow (some "March") (some 2024) (some "n1") (some "A") none (some "Sam") none,
    mkRow (some "March") (some 2024) (some "n2") (some "B") none (some "Sam") none,
    mkRow (some "March") (some 2024) (some "n3") (some "C") none (some "Dana") none,
    mkRow (some "March") (some 2024) (some "n4") (some "D") none (some "Dana") none], false⟩

/-- Exactly one member, with exactly one dated pick. -/
def exDf10 : DataFrame :=
  ⟨[mkRow (some "March") (some 2024) (some "n") (some "A") (some 1980) (some "Sam") none],
   false⟩

/-! ## The serialization model for claim C3

`__main__` of `wrapped.py` builds `json_safe_stats` from the stats document
and dumps it with `json.dump`.  `PyVal` is the shape of the Python object
tree handed to `json.dump`, with numpy scalar wrappers (`np.int64`,
`np.float64`) distinguished from native `int`/`float`.  The encoders below
record, point by point, which values of the document are numpy scalars in
the source (`Series.mean`/`np.mean`/`Series.max` results and their
differences) and which are native (`len`, `Counter` counts, `to_dict`-boxed
counts, true division / `0`), and mirror the conversions that
`json_safe_stats` applies (`float(...)` on `np.number`s, `int(...)` on the
release year, pass-through everywhere else). -/

/-- A Python value as seen by `json.dump`. -/
inductive PyVal where
  | pint (n : Int)
  | pfloat (q : ℚ)
  | npint (n : Int)
  | npfloat (q : ℚ)
  | pnan
  | pstr (s : String)
  | plist (xs : List PyVal)
  | pdict (kvs : List (PyVal × PyVal))

mutual

/-- No numpy scalar wrapper occurs anywhere in the value. -/
def wrapperFree : PyVal → Bool
  | .pint _ => true
  | .pfloat _ => true
  | .npint _ => false
  | .npfloat _ => false
  | .pnan => true
  | .pstr _ => true
  | .plist xs => wrapperFreeList xs
  | .pdict kvs => wrapperFreePairs kvs

/-- `wrapperFree` on every element. -/
def wrapperFreeList : List PyVal → Bool
  | [] => true
  | x :: xs => wrapperFree x && wrapperFreeList xs

/-- `wrapperFree` on every key and value. -/
def wrapperFreePairs : List (PyVal × PyVal) → Bool
  | [] => true
  | (k, v) :: xs => wrapperFree k && wrapperFree v && wrapperFreePairs xs

end

/-- A dict key taken from a member/month cell: a Python `str`, or the `nan`
float for a missing value. -/
def encKey : Option String → PyVal
  | some s => .pstr s
  | none => .pnan

/-- A `{str: count}` dict whose counts came through `Series.to_dict()` (which
boxes numpy ints to native `int`) or from native `defaultdict(int)` /
`Counter` arithmetic. -/
def encStrNatDict (l : List (String × Nat)) : PyVal :=
  .pdict (l.map (fun p => (.pstr p.1, .pint p.2)))

/-- A `(genre, count)` tuple from `Counter.most_common` (native `int`). -/
def encPairStrNat (p : String × Nat) : PyVal := .plist [.pstr p.1, .pint p.2]

/-- One `member_genre_prefs` entry: `top_genre` tuple and native-`int`
`genre_diversity` (a `len`). -/
def encGenrePref (e : (String × Nat) × Nat) : PyVal :=
  .pdict [(.pstr "top_genre", encPairStrNat e.1), (.pstr "genre_diversity", .pint e.2)]

/-- One raw `member_era_stats` entry: all four values are numpy floats
(`np.mean`, Python `min`/`max` over numpy floats, and their difference). -/
def encEraRaw (e : EraStats) : PyVal :=
  .pdict [(.pstr "avg_release_year", .npfloat e.avg_release_year),
          (.pstr "oldest_pick", .npfloat e.oldest_pick),
          (.pstr "newest_pick", .npfloat e.newest_pick),
          (.pstr "year_span", .npfloat e.year_span)]

/-- `float(sv) if isinstance(sv, np.number) else sv`. -/
def npToFloat : PyVal → PyVal
  | .npfloat q => .pfloat q
  | .npint n => .pfloat n
  | v => v

/-- Apply a conversion to every value of a dict (the era-preferences dict
comprehension of `json_safe_stats`). -/
def pdictMapVals (f : PyVal → PyVal) : PyVal → PyVal
  | .pdict kvs => .pdict (kvs.map (fun kv => (kv.1, f kv.2)))
  | v => v

/-- The `member_stats` branch of `json_safe_stats`: `selection_counts` and
`genre_preferences` passed through unchanged, `era_preferences` values
converted with the `isinstance(np.number)` test. -/
def encMemberStatsSafe (ms : MemberStats) : PyVal :=
  .pdict [(.pstr "selection_counts", encStrNatDict ms.selection_counts),
          (.pstr "genre_preferences",
            .pdict (ms.genre_preferences.map (fun p => (encKey p.1, encGenrePref p.2)))),
          (.pstr "era_preferences",
            .pdict (ms.era_preferences.map
              (fun p => (encKey p.1, pdictMapVals npToFloat (encEraRaw p.2)))))]

/-- Python `int(...)` on a float: truncation toward zero. -/
def ratTrunc (q : ℚ) : Int := Int.tdiv q.num q.den

/-- The three-field album reference of the `album_age_stats` branch. -/
def encAlbumRef (r : Row) : PyVal :=
  .pdict [(.pstr "name", encKey r.album_name),
          (.pstr "artist", encKey r.album_artist),
          (.pstr "year", .pint (ratTrunc (r.album_release_date.getD 0)))]

/-- The `album_age_stats` branch of `json_safe_stats`: emitted only when the
category is nonempty (`if value:`), with explicit `float(...)`/`int(...)`
conversions. -/
def encAgeSafe : Option AgeStats → List (PyVal × PyVal)
  | none => []
  | some a =>
    [(.pstr "album_age_stats", .pdict
      [(.pstr "avg_album_age", .pfloat a.avg_album_age),
       (.pstr "median_album_age", .pfloat a.median_album_age),
       (.pstr "oldest_album", encAlbumRef a.oldest_album),
       (.pstr "newest_album", encAlbumRef a.newest_album)])]

/-- `monthly_patterns`, passed through the `else` branch unchanged: counts are
`to_dict`-boxed native ints; the per-month averages are native results of `/`
(or the native `0` of the guard, encoded as the same rational). -/
def encMonthly (m : MonthlyPatterns) : PyVal :=
  .pdict [(.pstr "albums_per_month", encStrNatDict m.albums_per_month),
          (.pstr "avg_selections_per_person",
            .pdict (m.avg_selections_per_person.map (fun p => (encKey p.1, .pfloat p.2))))]

/-- `genre_stats`, passed through unchanged: `most_common` tuples and `len`
counts, all native. -/
def encGenre (g : GenreStats) : PyVal :=
  .pdict [(.pstr "top_genres", .plist (g.top_genres.map encPairStrNat)),
          (.pstr "total_unique_genres", .pint g.total_unique_genres),
          (.pstr "monthly_diversity",
            .pdict (g.monthly_diversity.map (fun p => (encKey p.1, .pint p.2))))]

/-- `artist_stats`, passed through unchanged. -/
def encArtist (a : ArtistStats) : PyVal :=
  .pdict [(.pstr "total_unique_artists", .pint a.total_unique_artists),
          (.pstr "repeat_artists", encStrNatDict a.repeat_artists)]

/-- The `superlatives` branch of `json_safe_stats`: each present category is a
`(member, value)` tuple whose value is converted by the
`isinstance(np.number)` test — `most_eclectic` carries a native `len`, the
three date-based categories carry numpy floats. -/
def encSupSafe (s : Superlatives) : List (PyVal × PyVal) :=
  (match s.most_eclectic with
   | some p => [(.pstr "most_eclectic", .plist [encKey p.1, npToFloat (.pint p.2)])]
   | none => []) ++
  (match s.time_traveler with
   | some p => [(.pstr "time_traveler", .plist [encKey p.1, npToFloat (.npfloat p.2)])]
   | none => []) ++
  (match s.vintage_collector with
   | some p => [(.pstr "vintage_collector", .plist [encKey p.1, npToFloat (.npfloat p.2)])]
   | none => []) ++
  (match s.trendsetter with
   | some p => [(.pstr "trendsetter", .plist [encKey p.1, npToFloat (.npfloat p.2)])]
   | none => [])

/-- One `club_evolution` entry, passed through unchanged: a `strftime` string,
a list of member cells, and a native `len`. -/
def encEvo (e : EvoEntry) : PyVal :=
  .pdict [(.pstr "date", .pstr e.date),
          (.pstr "participants", .plist (e.participants.map encKey)),
          (.pstr "num_albums", .pint e.num_albums)]

/-- The whole `json_safe_stats` object in the insertion order of the
`for key, value in stats.items()` loop, with `album_age_stats` omitted when
empty. -/
def jsonSafeStats (st : Stats) : PyVal :=
  .pdict ([(.pstr "member_stats", encMemberStatsSafe st.member_stats),
           (.pstr "genre_stats", encGenre st.genre_stats),
           (.pstr "decade_stats", encStrNatDict st.decade_stats)] ++
          encAgeSafe st.album_age_stats ++
          [(.pstr "monthly_patterns", encMonthly st.monthly_patterns),
           (.pstr "artist_stats", encArtist st.artist_stats),
           (.pstr "superlatives", .pdict (encSupSafe st.superlatives)),
           (.pstr "club_evolution", .plist (st.club_evolution.map encEvo))])

/-! ## General-purpose lemmas about the list helpers -/

theorem mem_uniqFrom [DecidableEq α] {a : α} :
    ∀ (seen l : List α), a ∈ uniqFrom seen l ↔ a ∈ l ∧ a ∉ seen := by
  intro seen l
  induction l generalizing seen with
  | nil => simp [uniqFrom]
  | cons x xs ih =>
    by_cases hx : x ∈ seen
    · simp only [uniqFrom, if_pos hx, ih, List.mem_cons]
      constructor
      · rintro ⟨h1, h2⟩
        exact ⟨Or.inr h1, h2⟩
      · rintro ⟨rfl | h1, h2⟩
        · exact absurd hx h2
        · exact ⟨h1, h2⟩
    · simp only [uniqFrom, if_neg hx, List.mem_cons, ih]
      constructor
      · rintro (rfl | ⟨h1, h2⟩)
        · exact ⟨Or.inl rfl, hx⟩
        · exact ⟨Or.inr h1, fun hc => h2 (Or.inr hc)⟩
      · rintro ⟨rfl | h1, h2⟩
        · exact Or.inl rfl
        · rcases eq_or_ne a x with rfl | hax
          · exact Or.inl rfl
          · exact Or.inr ⟨h1, fun hc => hc.elim hax h2⟩

theorem mem_uniq [DecidableEq α] {a : α} {l : List α} : a ∈ uniq l ↔ a ∈ l := by
  simp [uniq, mem_uniqFrom]

theorem nodup_uniqFrom [DecidableEq α] : ∀ (seen l : List α), (uniqFrom seen l).Nodup := by
  intro seen l
  induction l generalizing seen with
  | nil => simp [uniqFrom]
  | cons x xs ih =>
    by_cases hx : x ∈ seen
    · simpa [uniqFrom, if_pos hx] using ih seen
    · simp only [uniqFrom, if_neg hx]
      refine List.Nodup.cons ?_ (ih (x :: seen))
      intro hc
      exact ((mem_uniqFrom (x :: seen) xs).mp hc).2 (List.mem_cons_self x seen)

theorem nodup_uniq [DecidableEq α] (l : List α) : (uniq l).Nodup := nodup_uniqFrom [] l

theorem uniq_cons_head [DecidableEq α] (x : α) (xs : List α) :
    uniq (x :: xs) = x :: uniqFrom [x] xs := by
  simp [uniq, uniqFrom]

theorem uniq_eq_nil [DecidableEq α] {l : List α} : uniq l = [] ↔ l = [] := by
  cases l with
  | nil => simp [uniq, uniqFrom]
  | cons x xs => simp [uniq_cons_head]

/-- Membership in the canonical `key → (key, f key)` tabulation. -/
theorem pair_mem_map_tab {l : List α} {f : α → β} {k : α} {c : β} :
    (k, c) ∈ l.map (fun x => (x, f x)) ↔ k ∈ l ∧ c = f k := by
  simp only [List.mem_map, Prod.mk.injEq]
  constructor
  · rintro ⟨a, ha, rfl, rfl⟩
    exact ⟨ha, rfl⟩
  · rintro ⟨h1, rfl⟩
    exact ⟨k, h1, rfl, rfl⟩

theorem mem_insertionSort_iff {r : α → α → Prop} [DecidableRel r] {l : List α} {a : α} :
    a ∈ List.insertionSort r l ↔ a ∈ l :=
  (List.perm_insertionSort r l).mem_iff

/-! ## Claim C1 -/

/-- Claim C1, counterexample: a schema that contains `Month`, `Year` and
`album_release_date` but none of the three "required" columns
`select_member`, `album_artist`, `album_name` is loaded successfully — the
constructor performs no required-column validation and raises no
`DataFormatError`, contradicting the claim that such a load fails. -/
theorem claim1_counterexample :
    initColumns ["Month", "Year", "album_release_date"] =
      Except.ok ["Month", "Year", "album_release_date"] := rfl

/-- Claim C1, amended: construction succeeds exactly when the stripped schema
contains `Month`, `Year` and `album_release_date`; the presence of
`select_member`, `album_artist` and `album_name` is never checked, and the
only failure ever raised is a `KeyError`, never a `DataFormatError`. -/
theorem claim1_amended (cols : List String) :
    ((∃ out, initColumns cols = Except.ok out) ↔
      ("Month" ∈ cols.map pyStrip ∧ "Year" ∈ cols.map pyStrip ∧
        "album_release_date" ∈ cols.map pyStrip)) ∧
    (∀ e, initColumns cols = Except.error e → ∃ c, e = LoadError.keyError c) := by
  constructor
  · constructor
    · rintro ⟨out, h⟩
      by_cases h1 : "Month" ∈ cols.map pyStrip
      · by_cases h2 : "Year" ∈ cols.map pyStrip
        · by_cases h3 : "album_release_date" ∈ cols.map pyStrip
          · exact ⟨h1, h2, h3⟩
          · simp [initColumns, h1, h2, h3] at h
        · simp [initColumns, h1, h2] at h
      · simp [initColumns, h1] at h
    · rintro ⟨h1, h2, h3⟩
      refine ⟨if "Genera" ∈ cols.map pyStrip
          then (cols.map pyStrip).map (fun c => if c = "Genera" then "Genre" else c)
          else cols.map pyStrip, ?_⟩
      simp only [initColumns]
      rw [if_neg (not_not_intro h1), if_neg (not_not_intro h2), if_neg (not_not_intro h3)]
  · intro e he
    by_cases h1 : "Month" ∈ cols.map pyStrip
    · by_cases h2 : "Year" ∈ cols.map pyStrip
      · by_cases h3 : "album_release_date" ∈ cols.map pyStrip
        · simp [initColumns, h1, h2, h3] at he
        · exact ⟨"album_release_date", by simpa [initColumns, h1, h2, h3] using he.symm⟩
      · exact ⟨"Year", by simpa [initColumns, h1, h2] using he.symm⟩
    · exact ⟨"Month", by simpa [initColumns, h1] using he.symm⟩

/-- Witness for the hypothesis-bearing part of `claim1_amended`, at the
concrete schema `["Year"]` (which fails with `KeyError: Month`). -/
theorem claim1_amended_witness : ∃ c, LoadError.keyError "Month" = LoadError.keyError c :=
  (claim1_amended ["Year"]).2 (LoadError.keyError "Month") rfl

/-! ## Claim C2 -/

/-- Claim C2, counterexample: the dataset is not left unchanged by a report
run — `generate_wrapped_stats` ends with `self.df` differing from the loaded
dataframe, because `_get_club_evolution` assigns a new `date` column to the
shared dataframe. -/
theorem claim2_counterexample : (generate_wrapped_stats exDf2).1 ≠ exDf2 := by decide

/-- Claim C2, amended: during a run the only mutation of the shared dataset
is `_get_club_evolution`'s assignment of the derived `date` column; every
pre-existing column of every row is unchanged. -/
theorem claim2_amended (df : DataFrame) :
    (generate_wrapped_stats df).1 = addDateColumn df ∧
    (addDateColumn df).rows.map (fun r => { r with date := none }) =
      df.rows.map (fun r => { r with date := none }) := by
  refine ⟨rfl, ?_⟩
  simp only [addDateColumn, List.map_map]
  rfl

/-! ## Claim C9 -/

/-- Claim C9: on the three-record scenario input the engine returns
selection counts Sam 2 and Dana 1, two distinct genres, one album in each of
the 1970s, 1990s and 2000s, and artist A as the only repeat artist. -/
theorem claim9_scenario :
    (generate_wrapped_stats exDf9).2.member_stats.selection_counts =
      [("Sam", 2), ("Dana", 1)] ∧
    (generate_wrapped_stats exDf9).2.genre_stats.total_unique_genres = 2 ∧
    (generate_wrapped_stats exDf9).2.decade_stats =
      [("1970s", 1), ("1990s", 1), ("2000s", 1)] ∧
    (generate_wrapped_stats exDf9).2.artist_stats.repeat_artists = [("A", 2)] := by
  refine ⟨by decide, by decide, ?_, by decide⟩
  show decadeStats exDf9 = _
  have hl : decadeLabels exDf9 = ["1970s", "2000s", "1990s"] := by
    have hq1 : ⌊(1975 : ℚ) / 10⌋ = 197 := by norm_num
    have hq2 : ⌊(2001 : ℚ) / 10⌋ = 200 := by norm_num
    have hq3 : ⌊(1999 : ℚ) / 10⌋ = 199 := by norm_num
    simp [decadeLabels, datedYears, exDf9, mkRow, decadeLabel, hq1, hq2, hq3]
    decide
  unfold decadeStats
  rw [hl]
  decide

/-! ## Claim C3 -/

theorem wrapperFree_pint (n : Int) : wrapperFree (PyVal.pint n) = true := rfl

theorem wrapperFree_pfloat (q : ℚ) : wrapperFree (PyVal.pfloat q) = true := rfl

theorem wrapperFree_pnan : wrapperFree PyVal.pnan = true := rfl

theorem wrapperFree_pstr (s : String) : wrapperFree (PyVal.pstr s) = true := rfl

theorem wrapperFree_plist (xs : List PyVal) : wrapperFree (PyVal.plist xs) = wrapperFreeList xs :=
  rfl

theorem wrapperFree_pdict (kvs : List (PyVal × PyVal)) :
    wrapperFree (PyVal.pdict kvs) = wrapperFreePairs kvs := rfl

theorem wrapperFreeList_nil : wrapperFreeList [] = true := rfl

theorem wrapperFreeList_cons (x : PyVal) (xs : List PyVal) :
    wrapperFreeList (x :: xs) = (wrapperFree x && wrapperFreeList xs) := rfl

theorem wrapperFreePairs_nil : wrapperFreePairs [] = true := rfl

theorem wrapperFreePairs_cons (k v : PyVal) (rest : List (PyVal × PyVal)) :
    wrapperFreePairs ((k, v) :: rest) =
      (wrapperFree k && wrapperFree v && wrapperFreePairs rest) := rfl

theorem wrapperFreePairs_append (l1 l2 : List (PyVal × PyVal)) :
    wrapperFreePairs (l1 ++ l2) = (wrapperFreePairs l1 && wrapperFreePairs l2) := by
  induction l1 with
  | nil => simp [wrapperFreePairs_nil]
  | cons x xs ih =>
    obtain ⟨k, v⟩ := x
    simp [wrapperFreePairs_cons, ih, Bool.and_assoc]

theorem wrapperFree_encKey (o : Option String) : wrapperFree (encKey o) = true := by
  cases o <;> rfl

theorem wrapperFree_encStrNatDict (l : List (String × Nat)) :
    wrapperFree (encStrNatDict l) = true := by
  simp only [encStrNatDict, wrapperFree_pdict]
  induction l with
  | nil => rfl
  | cons p ps ih => simpa [wrapperFreePairs_cons, wrapperFree_pstr, wrapperFree_pint] using ih

theorem wrapperFreeList_map_encPairStrNat (l : List (String × Nat)) :
    wrapperFreeList (l.map encPairStrNat) = true := by
  induction l with
  | nil => rfl
  | cons p ps ih =>
    simpa [wrapperFreeList_cons, encPairStrNat, wrapperFree_plist, wrapperFreeList_cons,
      wrapperFree_pstr, wrapperFree_pint, wrapperFreeList_nil] using ih

theorem wrapperFreePairs_map_encKey {β : Type} (l : List (Option String × β)) (f : β → PyVal)
    (hf : ∀ b, wrapperFree (f b) = true) :
    wrapperFreePairs (l.map (fun p => (encKey p.1, f p.2))) = true := by
  induction l with
  | nil => rfl
  | cons p ps ih => simp [wrapperFreePairs_cons, wrapperFree_encKey, hf, ih]

theorem wrapperFree_encGenrePref (e : (String × Nat) × Nat) :
    wrapperFree (encGenrePref e) = true := rfl

theorem wrapperFree_encEraSafe (e : EraStats) :
    wrapperFree (pdictMapVals npToFloat (encEraRaw e)) = true := rfl

theorem wrapperFree_encMemberStatsSafe (ms : MemberStats) :
    wrapperFree (encMemberStatsSafe ms) = true := by
  have h1 := wrapperFree_encStrNatDict ms.selection_counts
  have h2 := wrapperFreePairs_map_encKey ms.genre_preferences _ wrapperFree_encGenrePref
  have h3 := wrapperFreePairs_map_encKey ms.era_preferences _ wrapperFree_encEraSafe
  simp [encMemberStatsSafe, wrapperFree_pdict, wrapperFreePairs_cons, wrapperFreePairs_nil,
    wrapperFree_pstr, h1, h2, h3]

theorem wrapperFree_encAlbumRef (r : Row) : wrapperFree (encAlbumRef r) = true := by
  simp [encAlbumRef, wrapperFree_pdict, wrapperFreePairs_cons, wrapperFreePairs_nil,
    wrapperFree_pstr, wrapperFree_pint, wrapperFree_encKey]

theorem wrapperFreePairs_encAgeSafe (o : Option AgeStats) :
    wrapperFreePairs (encAgeSafe o) = true := by
  cases o with
  | none => rfl
  | some a =>
    simp [encAgeSafe, wrapperFreePairs_cons, wrapperFreePairs_nil, wrapperFree_pstr,
      wrapperFree_pfloat, wrapperFree_pdict, wrapperFree_encAlbumRef]

theorem wrapperFree_encMonthly (m : MonthlyPatterns) : wrapperFree (encMonthly m) = true := by
  have h1 := wrapperFree_encStrNatDict m.albums_per_month
  have h2 := wrapperFreePairs_map_encKey m.avg_selections_per_person PyVal.pfloat
    wrapperFree_pfloat
  simp [encMonthly, wrapperFree_pdict, wrapperFreePairs_cons, wrapperFreePairs_nil,
    wrapperFree_pstr, h1, h2]

theorem wrapperFree_encGenre (g : GenreStats) : wrapperFree (encGenre g) = true := by
  have h1 := wrapperFreeList_map_encPairStrNat g.top_genres
  have h2 := wrapperFreePairs_map_encKey g.monthly_diversity
    (fun n : Nat => PyVal.pint (n : Int)) (fun _ => rfl)
  simp [encGenre, wrapperFree_pdict, wrapperFreePairs_cons, wrapperFreePairs_nil,
    wrapperFree_pstr, wrapperFree_pint, wrapperFree_plist, h1, h2]

theorem wrapperFree_encArtist (a : ArtistStats) : wrapperFree (encArtist a) = true := by
  have h1 := wrapperFree_encStrNatDict a.repeat_artists
  simp [encArtist, wrapperFree_pdict, wrapperFreePairs_cons, wrapperFreePairs_nil,
    wrapperFree_pstr, wrapperFree_pint, h1]

theorem wrapperFreePairs_encSupSafe (s : Superlatives) :
    wrapperFreePairs (encSupSafe s) = true := by
  obtain ⟨a, b, c, d⟩ := s
  cases a <;> cases b <;> cases c <;> cases d <;>
    simp [encSupSafe, wrapperFreePairs_append, wrapperFreePairs_cons, wrapperFreePairs_nil,
      wrapperFree_pstr, wrapperFree_plist, wrapperFreeList_cons, wrapperFreeList_nil,
      npToFloat, wrapperFree_pint, wrapperFree_pfloat, wrapperFree_encKey]

theorem wrapperFree_encEvo (e : EvoEntry) : wrapperFree (encEvo e) = true := by
  have hp : wrapperFreeList (e.participants.map encKey) = true := by
    induction e.participants with
    | nil => rfl
    | cons p ps ih => simp [wrapperFreeList_cons, wrapperFree_encKey, ih]
  simp [encEvo, wrapperFree_pdict, wrapperFreePairs_cons, wrapperFreePairs_nil,
    wrapperFree_pstr, wrapperFree_pint, wrapperFree_plist, hp]

theorem wrapperFreeList_map_encEvo (l : List EvoEntry) :
    wrapperFreeList (l.map encEvo) = true := by
  induction l with
  | nil => rfl
  | cons e es ih => simp [wrapperFreeList_cons, wrapperFree_encEvo, ih]

/-- Claim C3: for every input dataset, the object handed to `json.dump` —
the `json_safe_stats` built from the result of `generate_wrapped_stats` —
contains no numpy scalar wrapper anywhere: every numeric leaf in every
category (member selection counts, monthly patterns and artist stats
included) is a native Python `int` or `float`, so serialization never sees a
numpy wrapper. -/
theorem claim3_serialization (df : DataFrame) :
    wrapperFree (jsonSafeStats (generate_wrapped_stats df).2) = true := by
  obtain ⟨ms, gs, ds, aa, mp, arts, sup, ce⟩ := (generate_wrapped_stats df).2
  simp [jsonSafeStats, wrapperFree_pdict, wrapperFreePairs_append, wrapperFreePairs_cons,
    wrapperFreePairs_nil, wrapperFree_pstr, wrapperFree_pdict, wrapperFree_plist,
    wrapperFree_encMemberStatsSafe, wrapperFree_encGenre, wrapperFree_encStrNatDict,
    wrapperFreePairs_encAgeSafe, wrapperFree_encMonthly, wrapperFree_encArtist,
    wrapperFreePairs_encSupSafe, wrapperFreeList_map_encEvo]

/-! ## Claim C6 -/

theorem charListLe_total : ∀ (as bs : List Char),
    charListLe as bs = true ∨ charListLe bs as = true := by
  intro as
  induction as with
  | nil => intro bs; left; rfl
  | cons a as ih =>
    intro bs
    cases bs with
    | nil => right; rfl
    | cons b bs =>
      by_cases hab : a < b
      · left; simp [charListLe, hab]
      · by_cases hba : b < a
        · right; simp [charListLe, hba]
        · rcases ih bs with h | h
          · left; simp [charListLe, hab, hba, h]
          · right; simp [charListLe, hab, hba, h]

theorem charListLe_trans : ∀ (as bs cs : List Char),
    charListLe as bs = true → charListLe bs cs = true → charListLe as cs = true := by
  intro as
  induction as with
  | nil => intro bs cs h1 h2; rfl
  | cons a as ih =>
    intro bs cs h1 h2
    cases bs with
    | nil => simp [charListLe] at h1
    | cons b bs =>
      cases cs with
      | nil => simp [charListLe] at h2
      | cons c cs =>
        simp only [charListLe] at h1 h2 ⊢
        by_cases hab : a < b
        · by_cases hbc : b < c
          · simp [lt_trans hab hbc]
          · by_cases hcb : c < b
            · rw [if_neg hbc, if_pos hcb] at h2
              exact absurd h2 (by simp)
            · have hbc' : b = c := le_antisymm (not_lt.mp hcb) (not_lt.mp hbc)
              simp [hbc' ▸ hab]
        · by_cases hba : b < a
          · rw [if_neg hab, if_pos hba] at h1
            exact absurd h1 (by simp)
          · have hab' : a = b := le_antisymm (not_lt.mp hba) (not_lt.mp hab)
            subst hab'
            rw [if_neg hab, if_neg hba] at h1
            by_cases hac : a < c
            · simp [hac]
            · by_cases hca : c < a
              · rw [if_neg hac, if_pos hca] at h2
                exact absurd h2 (by simp)
              · rw [if_neg hac, if_neg hca] at h2 ⊢
                exact ih bs cs h1 h2

/-- Claim C6, counterexample: on a dataset whose decades have labels of
different digit counts (`995 ↦ "990s"`, `1975 ↦ "1970s"`), `_get_decade_stats`
returns the label-string-sorted order `["1970s", "990s"]`, not the
ascending-by-decade order `["990s", "1970s"]` demanded by the claim
(`decadeStatsSpec` is the claim's ordering, stated from the spec's words). -/
theorem claim6_counterexample :
    decadeStats exDf6 = [("1970s", 1), ("990s", 1)] ∧
    decadeStatsSpec exDf6 = [("990s", 1), ("1970s", 1)] ∧
    decadeStats exDf6 ≠ decadeStatsSpec exDf6 := by
  have h995 : ⌊(995 : ℚ) / 10⌋ = 99 := by norm_num
  have h1975 : ⌊(1975 : ℚ) / 10⌋ = 197 := by norm_num
  have e1 : decadeStats exDf6 = [("1970s", 1), ("990s", 1)] := by
    have hl : decadeLabels exDf6 = ["990s", "1970s"] := by
      simp [decadeLabels, datedYears, exDf6, mkRow, decadeLabel, h995, h1975]
      decide
    unfold decadeStats
    rw [hl]
    decide
  have e2 : decadeStatsSpec exDf6 = [("990s", 1), ("1970s", 1)] := by
    have hd : (datedYears exDf6).map (fun y => ⌊y / 10⌋ * 10) = [990, 1970] := by
      simp [datedYears, exDf6, mkRow, h995, h1975]
    unfold decadeStatsSpec
    rw [hd]
    decide
  refine ⟨e1, e2, ?_⟩
  rw [e1, e2]
  decide

/-- Claim C6, amended: the decade mapping is keyed by
`floor(releaseYear / 10) * 10` rendered with an `"s"` suffix (so 1977 maps to
`"1970s"`), each present label carries its positive tally, and the mapping is
returned sorted ascending by the *label string* (lexicographic code-point
order) — which coincides with ascending decade only among labels of equal
digit count. -/
theorem claim6_amended (df : DataFrame) :
    (decadeStats df).Pairwise (fun a b => strLe a.1 b.1 = true) ∧
    (∀ l c, (l, c) ∈ decadeStats df ↔ l ∈ decadeLabels df ∧ c = (decadeLabels df).count l) ∧
    decadeLabel 1977 = "1970s" := by
  refine ⟨?_, ?_, ?_⟩
  · haveI ht : IsTotal (String × Nat) (fun a b => strLe a.1 b.1 = true) :=
      ⟨fun a b => charListLe_total a.1.data b.1.data⟩
    haveI htr : IsTrans (String × Nat) (fun a b => strLe a.1 b.1 = true) :=
      ⟨fun a b c => charListLe_trans a.1.data b.1.data c.1.data⟩
    exact List.sorted_insertionSort _ _
  · intro l c
    unfold decadeStats
    rw [mem_insertionSort_iff, pair_mem_map_tab, mem_uniq]
  · have h : ⌊(1977 : ℚ) / 10⌋ = 197 := by norm_num
    unfold decadeLabel
    rw [h]
    decide

/-! ## Claim C5 -/

/-- Claim C5, counterexample: a genre cell `"Jazz,"` parses to the tokens
`["Jazz", ""]`, so the genre frequency table counts the empty-string tag and
the distinct-genre total counts it as a second genre — the parse is not a set
of non-empty strings and empty tags are counted. -/
theorem claim5_counterexample :
    (genreStats exDf5).top_genres = [("Jazz", 1), ("", 1)] ∧
    (genreStats exDf5).total_unique_genres = 2 := by decide

theorem mem_allGenres {df : DataFrame} {t : String} :
    t ∈ allGenres df ↔ ∃ r ∈ df.rows, ∃ g, r.genre = some g ∧ t ∈ parseGenresStr g := by
  unfold allGenres
  rw [List.mem_flatMap]
  constructor
  · rintro ⟨g, hg, ht⟩
    rcases List.mem_filterMap.mp hg with ⟨r, hr, he⟩
    exact ⟨r, hr, g, he, ht⟩
  · rintro ⟨r, hr, g, he, ht⟩
    exact ⟨g, List.mem_filterMap.mpr ⟨r, hr, he⟩, ht⟩

/-- Claim C5, amended: genre cells are parsed with
`[g.strip() for g in s.split(',')]`, a *list* of stripped tokens in which
empty tokens are retained; a missing cell contributes nothing.  Provided no
genre cell contains a token that strips to the empty string, every counted
tag is a nonempty stripped string and no aggregation (global frequency table,
per-member genre lists) ever counts an empty-string tag. -/
theorem claim5_amended (df : DataFrame)
    (h : ∀ r ∈ df.rows, ∀ t ∈ genreTokens r.genre, pyStrip t ≠ "") :
    (∀ t ∈ allGenres df, t ≠ "" ∧ ∃ s, t = pyStrip s) ∧
    (∀ p ∈ (genreStats df).top_genres, p.1 ≠ "") ∧
    (∀ m gs, (m, gs) ∈ genreByMember df → "" ∉ gs) ∧
    parseGenres none = [] := by
  have key : ∀ t ∈ allGenres df, t ≠ "" ∧ ∃ s, t = pyStrip s := by
    intro t ht
    rcases mem_allGenres.mp ht with ⟨r, hr, g, he, htok⟩
    rcases List.mem_map.mp htok with ⟨tok, htok2, rfl⟩
    have htok3 : tok ∈ genreTokens r.genre := by
      rw [he]
      exact htok2
    exact ⟨h r hr tok htok3, tok, rfl⟩
  refine ⟨key, ?_, ?_, rfl⟩
  · rintro ⟨k, c⟩ hp
    have hp2 : (k, c) ∈ (valueCountsStr (allGenres df)).take 10 := hp
    have hp3 : (k, c) ∈ valueCountsStr (allGenres df) := List.mem_of_mem_take hp2
    have hp4 := (pair_mem_map_tab.mp (mem_insertionSort_iff.mp hp3)).1
    exact (key k (mem_uniq.mp hp4)).1
  · intro m gs hmem hin
    have h2 := pair_mem_map_tab.mp hmem
    rcases List.mem_flatMap.mp (h2.2 ▸ hin) with ⟨r, hr, hg⟩
    have hr2 := List.mem_filter.mp hr
    have hr3 := List.mem_filter.mp hr2.1
    rcases Option.isSome_iff_exists.mp (by simpa using hr3.2) with ⟨g, hg2⟩
    rw [hg2] at hg
    rcases List.mem_map.mp hg with ⟨tok, htok, hstrip⟩
    have htok2 : tok ∈ genreTokens r.genre := by
      rw [hg2]
      exact htok
    exact h r hr3.1 tok htok2 hstrip

/-- Witness for `claim5_amended` at a concrete dataset whose genre tokens are
padded but nonempty. -/
theorem claim5_amended_witness :
    (∀ t ∈ allGenres exDf5w, t ≠ "" ∧ ∃ s, t = pyStrip s) ∧
    (∀ p ∈ (genreStats exDf5w).top_genres, p.1 ≠ "") ∧
    (∀ m gs, (m, gs) ∈ genreByMember exDf5w → "" ∉ gs) ∧
    parseGenres none = [] :=
  claim5_amended exDf5w (by decide)

/-! ## Claim C4 -/

/-- Claim C4, counterexample: a record with a missing selector but a present
genre produces the missing (`NaN`) key in the published `genre_preferences`
mapping — it is not excluded from that member-keyed aggregation — while
`value_counts` does drop it from `selection_counts`. -/
theorem claim4_counterexample :
    (memberStats exDf4).genre_preferences = [(none, (("Jazz", 1), 1))] ∧
    (memberStats exDf4).selection_counts = [] := by decide

theorem count_filterMap_id [DecidableEq α] (l : List (Option α)) (k : α) :
    (l.filterMap id).count k = l.count (some k) := by
  induction l with
  | nil => rfl
  | cons x xs ih =>
    cases x with
    | none => simp [List.filterMap_cons, List.count_cons, ih]
    | some a => by_cases hak : a = k <;> simp [List.filterMap_cons, List.count_cons, ih, hak]

theorem mem_valueCounts {xs : List (Option String)} {k : String} {c : Nat} :
    (k, c) ∈ valueCounts xs ↔ some k ∈ xs ∧ c = xs.count (some k) := by
  unfold valueCounts
  rw [mem_insertionSort_iff, pair_mem_map_tab, mem_uniq, count_filterMap_id]
  have hm : k ∈ xs.filterMap id ↔ some k ∈ xs := by
    simp [List.mem_filterMap]
  rw [hm]

theorem splitCommaAux_ne_nil : ∀ l : List Char, splitCommaAux l ≠ [] := by
  intro l
  cases l with
  | nil => simp [splitCommaAux]
  | cons c cs =>
    simp only [splitCommaAux]
    rcases hm : splitCommaAux cs with _ | ⟨t, ts⟩
    · simp
    · by_cases hc : c = ',' <;> simp [hc]

theorem parseGenresStr_ne_nil (s : String) : parseGenresStr s ≠ [] := by
  intro h
  unfold parseGenresStr pySplitComma at h
  rw [List.map_eq_nil_iff, List.map_eq_nil_iff] at h
  exact splitCommaAux_ne_nil s.data h

theorem genreByMember_keys {df : DataFrame} {m : Option String} :
    (∃ gs, (m, gs) ∈ genreByMember df) ↔
      ∃ r ∈ df.rows, r.select_member = m ∧ r.genre.isSome := by
  unfold genreByMember genreRows
  constructor
  · rintro ⟨gs, hmem⟩
    have h2 := (pair_mem_map_tab.mp hmem).1
    rcases List.mem_map.mp (mem_uniq.mp h2) with ⟨r, hr, he⟩
    have hr2 := List.mem_filter.mp hr
    exact ⟨r, hr2.1, he, by simpa using hr2.2⟩
  · rintro ⟨r, hr, hsel, hg⟩
    refine ⟨_, pair_mem_map_tab.mpr ⟨?_, rfl⟩⟩
    rw [mem_uniq]
    exact List.mem_map.mpr ⟨r, List.mem_filter.mpr ⟨hr, by simpa using hg⟩, hsel⟩

theorem genreByMember_snd_ne_nil {df : DataFrame} {m : Option String} {gs : List String}
    (h : (m, gs) ∈ genreByMember df) : gs ≠ [] := by
  unfold genreByMember at h
  rcases pair_mem_map_tab.mp h with ⟨hk, rfl⟩
  rcases List.mem_map.mp (mem_uniq.mp hk) with ⟨r, hr, he⟩
  intro hnil
  have hrf : r ∈ (genreRows df).filter (fun r2 => r2.select_member == m) :=
    List.mem_filter.mpr ⟨hr, by simp [he]⟩
  have hz := List.flatMap_eq_nil_iff.mp hnil r hrf
  have hg := (List.mem_filter.mp hr).2
  rcases Option.isSome_iff_exists.mp (by simpa using hg) with ⟨g, hg2⟩
  rw [hg2] at hz
  exact parseGenresStr_ne_nil g hz

theorem memberGenrePrefs_keys {df : DataFrame} {m : Option String} :
    (∃ e, (m, e) ∈ memberGenrePrefs df) ↔ ∃ gs, (m, gs) ∈ genreByMember df := by
  unfold memberGenrePrefs
  constructor
  · rintro ⟨e, he⟩
    rcases List.mem_filterMap.mp he with ⟨⟨m2, gs⟩, hp, hpe⟩
    by_cases hemp : gs.isEmpty = true
    · rw [if_pos hemp] at hpe
      exact absurd hpe (by simp)
    · rw [if_neg hemp] at hpe
      have h1 : m2 = m := (Prod.ext_iff.mp (Option.some.inj hpe)).1
      exact ⟨gs, h1 ▸ hp⟩
  · rintro ⟨gs, hgs⟩
    have hne := genreByMember_snd_ne_nil hgs
    refine ⟨(mostCommon1 gs, (uniq gs).length),
      List.mem_filterMap.mpr ⟨(m, gs), hgs, ?_⟩⟩
    rw [if_neg (by simpa using hne)]

theorem eraByMember_keys {df : DataFrame} {m : Option String} :
    (∃ ys, (m, ys) ∈ eraByMember df) ↔
      ∃ r ∈ df.rows, r.select_member = m ∧ r.album_release_date.isSome := by
  unfold eraByMember datedRows
  constructor
  · rintro ⟨ys, hmem⟩
    have h2 := (pair_mem_map_tab.mp hmem).1
    rcases List.mem_map.mp (mem_uniq.mp h2) with ⟨r, hr, he⟩
    have hr2 := List.mem_filter.mp hr
    exact ⟨r, hr2.1, he, by simpa using hr2.2⟩
  · rintro ⟨r, hr, hsel, hg⟩
    refine ⟨_, pair_mem_map_tab.mpr ⟨?_, rfl⟩⟩
    rw [mem_uniq]
    exact List.mem_map.mpr ⟨r, List.mem_filter.mpr ⟨hr, by simpa using hg⟩, hsel⟩

theorem eraByMember_snd_ne_nil {df : DataFrame} {m : Option String} {ys : List ℚ}
    (h : (m, ys) ∈ eraByMember df) : ys ≠ [] := by
  unfold eraByMember at h
  rcases pair_mem_map_tab.mp h with ⟨hk, rfl⟩
  rcases List.mem_map.mp (mem_uniq.mp hk) with ⟨r, hr, he⟩
  intro hnil
  have hrf : r ∈ (datedRows df).filter (fun r2 => r2.select_member == m) :=
    List.mem_filter.mpr ⟨hr, by simp [he]⟩
  have hz := List.filterMap_eq_nil_iff.mp hnil r hrf
  have hg := (List.mem_filter.mp hr).2
  rw [hz] at hg
  simp at hg

theorem memberEraStats_keys {df : DataFrame} {m : Option String} :
    (∃ e, (m, e) ∈ memberEraStats df) ↔ ∃ ys, (m, ys) ∈ eraByMember df := by
  unfold memberEraStats
  constructor
  · rintro ⟨e, he⟩
    rcases List.mem_filterMap.mp he with ⟨⟨m2, ys⟩, hp, hpe⟩
    by_cases hemp : ys.isEmpty = true
    · rw [if_pos hemp] at hpe
      exact absurd hpe (by simp)
    · rw [if_neg hemp] at hpe
      have h1 : m2 = m := (Prod.ext_iff.mp (Option.some.inj hpe)).1
      exact ⟨ys, h1 ▸ hp⟩
  · rintro ⟨ys, hys⟩
    have hne := eraByMember_snd_ne_nil hys
    refine ⟨⟨listMean ys, listMin ys, listMax ys, listMax ys - listMin ys⟩,
      List.mem_filterMap.mpr ⟨(m, ys), hys, ?_⟩⟩
    rw [if_neg (by simpa using hne)]

theorem genreStats_eraseSelectors (df : DataFrame) :
    genreStats (eraseSelectors df) = genreStats df := by
  unfold genreStats eraseSelectors allGenres monthLabels monthRows
  simp only [List.filterMap_map, List.map_map, List.filter_map]
  rfl

theorem decadeStats_eraseSelectors (df : DataFrame) :
    decadeStats (eraseSelectors df) = decadeStats df := by
  unfold decadeStats decadeLabels datedYears eraseSelectors
  simp only [List.filterMap_map]
  rfl

theorem artistStats_eraseSelectors (df : DataFrame) :
    artistStats (eraseSelectors df) = artistStats df := by
  unfold artistStats valueCounts eraseSelectors
  simp only [List.map_map]
  rfl

theorem albumsPerMonth_eraseSelectors (df : DataFrame) :
    albumsPerMonth (eraseSelectors df) = albumsPerMonth df := by
  unfold albumsPerMonth eraseSelectors
  simp only [List.filterMap_map, List.filter_map, List.length_map]
  rfl

/-- Claim C4, amended: records with a missing selector are excluded from
`selection_counts` (whose keys are exactly the present selector values, each
with its row count), but they are *not* excluded from the other member-keyed
aggregations: the missing (`NaN`) key appears in `genre_preferences` exactly
when such a record has a genre, and in `era_preferences` exactly when such a
record has a release date.  Such records still feed the genre, decade and
artist statistics and the per-month album tally, none of which read the
selector column (the remaining aggregations — the per-month
average-selections divisor and the club-evolution participant lists — do
read it and are not covered here). -/
theorem claim4_amended (df : DataFrame) :
    (∀ k c, (k, c) ∈ (memberStats df).selection_counts ↔
      (some k ∈ df.rows.map (fun r => r.select_member) ∧
        c = (df.rows.map (fun r => r.select_member)).count (some k))) ∧
    ((∃ e, (none, e) ∈ (memberStats df).genre_preferences) ↔
      ∃ r ∈ df.rows, r.select_member = none ∧ r.genre.isSome) ∧
    ((∃ e, (none, e) ∈ (memberStats df).era_preferences) ↔
      ∃ r ∈ df.rows, r.select_member = none ∧ r.album_release_date.isSome) ∧
    genreStats (eraseSelectors df) = genreStats df ∧
    decadeStats (eraseSelectors df) = decadeStats df ∧
    artistStats (eraseSelectors df) = artistStats df ∧
    albumsPerMonth (eraseSelectors df) = albumsPerMonth df := by
  refine ⟨?_, ?_, ?_, genreStats_eraseSelectors df, decadeStats_eraseSelectors df,
    artistStats_eraseSelectors df, albumsPerMonth_eraseSelectors df⟩
  · intro k c
    exact mem_valueCounts
  · exact memberGenrePrefs_keys.trans genreByMember_keys
  · exact memberEraStats_keys.trans eraByMember_keys

/-! ## Claim C7 -/

/-- Claim C7: every entry of the per-month average-selections dict is
`len(month_df) / unique_selectors` when the month has a positive number of
distinct selectors, and the guarded `0` when it has none — the division is
never executed with a zero divisor. -/
theorem claim7_monthly_avg (df : DataFrame) (l : Option String) (v : ℚ)
    (h : (l, v) ∈ avgSelectionsPerPerson df) :
    (0 < monthNunique df l →
      v = ((monthRows df l).length : ℚ) / (monthNunique df l : ℚ)) ∧
    (monthNunique df l = 0 → v = 0) := by
  unfold avgSelectionsPerPerson at h
  have h2 := (pair_mem_map_tab.mp h).2
  constructor
  · intro hpos
    rw [h2, if_pos hpos]
  · intro hz
    rw [h2, if_neg (by simp [hz])]

/-- Witness for `claim7_monthly_avg`: a March with 4 records from 2 distinct
selectors averages 2.0 selections per person. -/
theorem claim7_monthly_avg_witness :
    (0 < monthNunique exDf7 (some "March") →
      (2 : ℚ) = ((monthRows exDf7 (some "March")).length : ℚ) /
        (monthNunique exDf7 (some "March") : ℚ)) ∧
    (monthNunique exDf7 (some "March") = 0 → (2 : ℚ) = 0) := by
  have hv : ((monthRows exDf7 (some "March")).length : ℚ) /
      (monthNunique exDf7 (some "March") : ℚ) = 2 := by
    have h4 : (monthRows exDf7 (some "March")).length = 4 := by decide
    have h2 : monthNunique exDf7 (some "March") = 2 := by decide
    rw [h4, h2]
    norm_num
  have hmem : (some "March", (2 : ℚ)) ∈ avgSelectionsPerPerson exDf7 := by
    have hpos : 0 < monthNunique exDf7 (some "March") := by decide
    have hlist : avgSelectionsPerPerson exDf7 =
        [(some "March", if 0 < monthNunique exDf7 (some "March")
          then ((monthRows exDf7 (some "March")).length : ℚ) /
            (monthNunique exDf7 (some "March") : ℚ) else 0)] := by
      unfold avgSelectionsPerPerson
      have hml : monthLabels exDf7 = [some "March"] := by decide
      rw [hml]
      rfl
    rw [hlist, if_pos hpos, hv]
    exact List.mem_singleton.mpr rfl
  exact claim7_monthly_avg exDf7 (some "March") 2 hmem

/-! ## Claim C8 -/

/-- Claim C8, counterexample: on a dataset in which no record has any genre,
`most_eclectic` is still awarded (to the first member, with diversity 0) —
the category is not omitted when no member has a genre, because the
`genre_diversity` dict maps every member, genre-less or not. -/
theorem claim8_counterexample :
    exDf2.rows.all (fun r => r.genre == none) = true ∧
    (superlatives exDf2).most_eclectic = some (some "Sam", 0) := by decide

theorem pandasEq_true_left {a b : Option String} (h : pandasEq a b = true) :
    ∃ s, a = some s ∧ b = some s := by
  cases a with
  | none => simp [pandasEq] at h
  | some x =>
    cases b with
    | none => simp [pandasEq] at h
    | some y =>
      have hxy : x = y := eq_of_beq h
      exact ⟨x, rfl, by rw [hxy]⟩

theorem maxBySnd_isSome_iff [LinearOrder β] {l : List (α × β)} :
    (maxBySnd l).isSome = true ↔ l ≠ [] := by
  cases l <;> simp [maxBySnd]

theorem minBySnd_isSome_iff [LinearOrder β] {l : List (α × β)} :
    (minBySnd l).isSome = true ↔ l ≠ [] := by
  cases l <;> simp [minBySnd]

theorem perMemberDated_ne_nil_iff (df : DataFrame) (g : List ℚ → ℚ) :
    perMemberDated df g ≠ [] ↔
      ∃ r ∈ df.rows, r.select_member.isSome ∧ r.album_release_date.isSome := by
  unfold perMemberDated
  constructor
  · intro hne
    rcases List.exists_mem_of_ne_nil _ hne with ⟨p, hp⟩
    rcases List.mem_filterMap.mp hp with ⟨m, hm, hFm⟩
    by_cases hemp : (memberDates df m).isEmpty = true
    · rw [if_pos hemp] at hFm
      exact absurd hFm (by simp)
    · have hne2 : memberDates df m ≠ [] := by simpa using hemp
      rcases List.exists_mem_of_ne_nil _ hne2 with ⟨d, hd⟩
      unfold memberDates memberRowsPd at hd
      rcases List.mem_filterMap.mp hd with ⟨r, hr, hrd⟩
      have hr2 := List.mem_filter.mp hr
      rcases pandasEq_true_left hr2.2 with ⟨s, hs1, _⟩
      exact ⟨r, hr2.1, by simp [hs1], by simp [hrd]⟩
  · rintro ⟨r, hr, hsel, hdate⟩
    rcases Option.isSome_iff_exists.mp hsel with ⟨s, hs⟩
    rcases Option.isSome_iff_exists.mp hdate with ⟨d, hd⟩
    intro hnil
    have hmem : some s ∈ uniqSel df := by
      unfold uniqSel
      rw [mem_uniq]
      exact List.mem_map.mpr ⟨r, hr, hs⟩
    have hF := List.filterMap_eq_nil_iff.mp hnil (some s) hmem
    have hdm : d ∈ memberDates df (some s) := by
      unfold memberDates memberRowsPd
      exact List.mem_filterMap.mpr ⟨r, List.mem_filter.mpr ⟨hr, by simp [hs, pandasEq]⟩, hd⟩
    rw [if_neg (by simpa using List.ne_nil_of_mem hdm)] at hF
    exact absurd hF (by simp)

/-- Claim C8, amended: the three date-based superlatives are each omitted
exactly when no record carries both a selector and a release date; but
`most_eclectic` is omitted only when the dataset is empty — a dataset with
records but no genres still awards it (with diversity 0). -/
theorem claim8_amended (df : DataFrame) :
    ((superlatives df).most_eclectic.isSome ↔ df.rows ≠ []) ∧
    ((superlatives df).time_traveler.isSome ↔
      ∃ r ∈ df.rows, r.select_member.isSome ∧ r.album_release_date.isSome) ∧
    ((superlatives df).vintage_collector.isSome ↔
      ∃ r ∈ df.rows, r.select_member.isSome ∧ r.album_release_date.isSome) ∧
    ((superlatives df).trendsetter.isSome ↔
      ∃ r ∈ df.rows, r.select_member.isSome ∧ r.album_release_date.isSome) := by
  refine ⟨?_, ?_, ?_, ?_⟩
  · show (maxBySnd (genreDiversity df)).isSome = true ↔ df.rows ≠ []
    rw [maxBySnd_isSome_iff]
    unfold genreDiversity uniqSel
    simp [Ne, List.map_eq_nil_iff, uniq_eq_nil]
  · show (maxBySnd (yearSpans df)).isSome = true ↔ _
    rw [maxBySnd_isSome_iff]
    exact perMemberDated_ne_nil_iff df _
  · show (minBySnd (avgYears df)).isSome = true ↔ _
    rw [minBySnd_isSome_iff]
    exact perMemberDated_ne_nil_iff df _
  · show (maxBySnd (avgYears df)).isSome = true ↔ _
    rw [maxBySnd_isSome_iff]
    exact perMemberDated_ne_nil_iff df _

/-! ## Claim C10 -/

/-- Claim C10: `vintage_collector` and `trendsetter` are emitted under the
same condition (nonemptiness of the shared `avg_years` dict), so one is
present exactly when the other is; and when `avg_years` has exactly one
entry that member wins both. -/
theorem claim10_vintage_trendsetter (df : DataFrame) :
    ((superlatives df).vintage_collector.isSome ↔ (superlatives df).trendsetter.isSome) ∧
    (∀ m v, avgYears df = [(m, v)] →
      (superlatives df).vintage_collector = some (m, v) ∧
      (superlatives df).trendsetter = some (m, v)) := by
  constructor
  · show (minBySnd (avgYears df)).isSome = true ↔ (maxBySnd (avgYears df)).isSome = true
    rw [minBySnd_isSome_iff, maxBySnd_isSome_iff]
  · intro m v h
    show minBySnd (avgYears df) = _ ∧ maxBySnd (avgYears df) = _
    rw [h]
    exact ⟨rfl, rfl⟩

/-- Witness for `claim10_vintage_trendsetter` at a dataset with exactly one
member and one dated pick: the same member wins both categories with the
same mean. -/
theorem claim10_vintage_trendsetter_witness :
    (superlatives exDf10).vintage_collector = some (some "Sam", 1980) ∧
    (superlatives exDf10).trendsetter = some (some "Sam", 1980) := by
  have h1 : avgYears exDf10 = [(some "Sam", listMean [1980])] := rfl
  have h2 : listMean [(1980 : ℚ)] = 1980 := by
    simp [listMean]
  exact (claim10_vintage_trendsetter exDf10).2 (some "Sam") 1980 (by rw [h1, h2])
